import Mathlib

/-!
# Verification of the `@mikesaintsg/rater` rating engine

A shallow embedding of the rater library (src/helpers.ts, src/types.ts,
src/constants.ts and the core `RatingEngine`) together with proofs about its
behaviour.

Modelling conventions:
* JavaScript numbers are modelled as `ℚ` (the library performs only field
  arithmetic, `Math.round` / `Math.ceil` / `Math.floor`, and comparisons, all
  exact on rationals for the inputs the claims speak about).
* JavaScript runtime values (the `unknown`-typed subject fields and condition
  values) are modelled by the inductive `JSValue`.  Strict equality (`===`) is
  modelled structurally; object reference identity is not observable in any
  property proved here.
* The string-union types `MathematicalOperation`, `AggregationMethod` and
  `ConditionalOperator` are modelled as `String`, matching the JavaScript
  runtime where any string can flow in and `switch` statements have a
  `default` arm for unknown members.
* Methods guarded by `#assertNotDestroyed` are modelled in `Except RaterError`;
  a thrown error is the `.error` case.
-/

namespace Rater

mutual

/-- A JavaScript runtime value, as far as the rater library observes it. -/
inductive JSValue where
  | num (q : ℚ)
  | str (s : String)
  | bool (b : Bool)
  | null
  | undefined
  | arr (elems : JSList)
  | obj (fields : JSFields)
deriving DecidableEq, Repr

/-- The elements of a JavaScript array value. -/
inductive JSList where
  | nil
  | cons (v : JSValue) (tl : JSList)
deriving DecidableEq, Repr

/-- The own enumerable entries of a JavaScript object value, in insertion
order. -/
inductive JSFields where
  | nil
  | cons (key : String) (v : JSValue) (tl : JSFields)
deriving DecidableEq, Repr

end

/-- First value stored under a key, `undefined`-free `Option` form of JS
property access. -/
def JSFields.lookup : JSFields → String → Option JSValue
  | .nil, _ => none
  | .cons k v tl, key => if k = key then some v else tl.lookup key

/-- JS `Array.prototype.includes` (SameValueZero modelled structurally). -/
def JSList.contains : JSList → JSValue → Bool
  | .nil, _ => false
  | .cons v tl, x => v = x || tl.contains x

/-- helpers.ts `isNumber` (NaN is excluded by the `ℚ` model). -/
def isNumber : JSValue → Bool
  | .num _ => true
  | _ => false

/-- helpers.ts `isString`. -/
def isString : JSValue → Bool
  | .str _ => true
  | _ => false

/-- helpers.ts `isArray`. -/
def isArray : JSValue → Bool
  | .arr _ => true
  | _ => false

/-- helpers.ts `isRecord`: a non-null object that is not an array. -/
def isRecord : JSValue → Bool
  | .obj _ => true
  | _ => false

/-- Auxiliary loop of helpers.ts `getNestedValue`: walk the remaining path
parts; any intermediate that is not a plain record yields `undefined`. -/
def getNestedAux : JSValue → List String → JSValue
  | current, [] => current
  | current, part :: parts =>
    match current with
    | .obj fields => getNestedAux ((fields.lookup part).getD .undefined) parts
    | _ => .undefined

/-- Accumulator loop of `splitOnDot`. -/
def splitDotAux : List Char → List Char → List String
  | [], acc => [String.mk acc.reverse]
  | '.' :: rest, acc => String.mk acc.reverse :: splitDotAux rest []
  | c :: rest, acc => splitDotAux rest (c :: acc)

/-- JS `path.split('.')`: the empty path gives `[""]`, consecutive dots give
empty segments. -/
def splitOnDot (path : String) : List String :=
  splitDotAux path.data []

/-- helpers.ts `getNestedValue`: dot-path traversal of a subject. -/
def getNestedValue (obj : JSValue) (path : String) : JSValue :=
  match obj with
  | .null => .undefined
  | .undefined => .undefined
  | _ => getNestedAux obj (splitOnDot path)

/-- Numeric value of a decimal digit list (most significant first). -/
def digitsToNat (ds : List Char) : ℕ :=
  ds.foldl (fun a c => a * 10 + (c.toNat - 48)) 0

/-- Model of `Number.parseFloat` for plain decimal literals: optional leading
whitespace, optional sign, integer digits and/or a fractional part.  Exponent
notation and `Infinity` (not representable in `ℚ`) are outside the model's
scope and are not exercised by any claim. -/
def parseFloat (s : String) : Option ℚ :=
  let cs := s.data.dropWhile fun c => c == ' ' || c == '\t' || c == '\n' || c == '\r'
  let signAndRest : ℚ × List Char :=
    match cs with
    | '-' :: rest => (-1, rest)
    | '+' :: rest => (1, rest)
    | _ => (1, cs)
  let intDigits := signAndRest.2.takeWhile Char.isDigit
  let rest := signAndRest.2.dropWhile Char.isDigit
  let fracDigits : List Char :=
    match rest with
    | '.' :: r => r.takeWhile Char.isDigit
    | _ => []
  if intDigits.isEmpty && fracDigits.isEmpty then none
  else
    let ip : ℚ := (digitsToNat intDigits : ℚ)
    let fp : ℚ := (digitsToNat fracDigits : ℚ) / (10 : ℚ) ^ fracDigits.length
    some (signAndRest.1 * (ip + fp))

/-- helpers.ts `toNumber`: numbers pass through, strings go through
`parseFloat`, everything else fails to coerce. -/
def toNumber : JSValue → Option ℚ
  | .num q => some q
  | .str s => parseFloat s
  | _ => none

/-- Rendering of a rational as the model's stand-in for JavaScript
`String(number)`; exact digits of non-integer rationals are not observed by
any claim. -/
def ratToString (q : ℚ) : String :=
  if q.den = 1 then toString q.num else toString q.num ++ "/" ++ toString q.den

mutual

/-- Shallow model of `JSON.stringify` (string escaping omitted; only used as
an opaque-to-the-claims lookup-key rendering for objects and arrays). -/
def jsonStringify : JSValue → String
  | .num q => ratToString q
  | .str s => "\"" ++ s ++ "\""
  | .bool b => if b then "true" else "false"
  | .null => "null"
  | .undefined => "null"
  | .arr elems => "[" ++ jsonStringifyList elems ++ "]"
  | .obj fields => "\x7b" ++ jsonStringifyFields fields ++ "\x7d"

/-- Comma-joined renderings of array elements. -/
def jsonStringifyList : JSList → String
  | .nil => ""
  | .cons v .nil => jsonStringify v
  | .cons v vs => jsonStringify v ++ "," ++ jsonStringifyList vs

/-- Comma-joined renderings of object entries. -/
def jsonStringifyFields : JSFields → String
  | .nil => ""
  | .cons k v .nil => "\"" ++ k ++ "\":" ++ jsonStringify v
  | .cons k v fs => "\"" ++ k ++ "\":" ++ jsonStringify v ++ "," ++ jsonStringifyFields fs

end

/-- helpers.ts `toLookupKey`: stable string conversion used for lookup-table
keys (bigint/symbol/function inputs are outside the `JSValue` model). -/
def toLookupKey : JSValue → String
  | .str s => s
  | .num q => ratToString q
  | .null => "null"
  | .undefined => "undefined"
  | .bool b => if b then "true" else "false"
  | .arr elems => jsonStringify (.arr elems)
  | .obj fields => jsonStringify (.obj fields)

/-- JavaScript `Math.round`: round half toward positive infinity. -/
def jsRound (q : ℚ) : ℤ := ⌊q + 1 / 2⌋

/-- helpers.ts `roundToDecimalPlaces`. -/
def roundToDecimalPlaces (value : ℚ) (decimalPlaces : ℤ) : ℚ :=
  let multiplier := (10 : ℚ) ^ decimalPlaces
  (jsRound (value * multiplier) : ℚ) / multiplier

/-- helpers.ts `clamp`: apply the lower bound first, then the upper bound. -/
def clamp (value : ℚ) (minimum maximum : Option ℚ) : ℚ :=
  let result := value
  let result :=
    match minimum with
    | some m => if result < m then m else result
    | none => result
  match maximum with
  | some m => if result > m then m else result
  | none => result

/-- types.ts `RateCondition`.  The operator is a `String` because at runtime
any string can reach the evaluator's `switch` (its `default` arm handles
unknown operators). -/
structure RateCondition where
  field : String
  operator : String
  value : JSValue
deriving DecidableEq, Repr

/-- types.ts `RateConditionResult`. -/
structure RateConditionResult where
  condition : RateCondition
  isMet : Bool
  actualValue : JSValue
  error : Option String := none
deriving DecidableEq, Repr

/-- types.ts `RateLookupTable`; the `values` record is an association list. -/
structure RateLookupTable where
  field : String
  values : List (String × ℚ)
  defaultValue : Option ℚ := none
deriving DecidableEq, Repr

/-- types.ts `RateRange`. -/
structure RateRange where
  minimum : Option ℚ := none
  maximum : Option ℚ := none
  rate : ℚ
deriving DecidableEq, Repr

/-- types.ts `RateRangeTable`. -/
structure RateRangeTable where
  field : String
  ranges : List RateRange
  defaultRate : Option ℚ := none
deriving DecidableEq, Repr

/-- types.ts `RateFactor`; optional fields are `Option`s defaulting to
`none` (absent). -/
structure RateFactor where
  id : String
  label : String
  description : Option String := none
  conditions : Option (List RateCondition) := none
  baseRate : Option ℚ := none
  lookupTable : Option RateLookupTable := none
  rangeTable : Option RateRangeTable := none
  fieldPath : Option String := none
  operation : Option String := none
  operand : Option ℚ := none
  required : Option Bool := none
  enabled : Option Bool := none
  minimumRate : Option ℚ := none
  maximumRate : Option ℚ := none
  priority : Option ℚ := none
deriving DecidableEq, Repr

/-- types.ts `RateFactorGroup`. -/
structure RateFactorGroup where
  id : String
  label : String
  factors : List RateFactor
  aggregationMethod : String
  baseRate : Option ℚ := none
  requireAll : Option Bool := none
deriving DecidableEq, Repr

/-- types.ts `RateFactorResult`. -/
structure RateFactorResult where
  factor : RateFactor
  isApplied : Bool
  rate : ℚ
  conditionResults : Option (List RateConditionResult) := none
  error : Option String := none
deriving DecidableEq, Repr

/-- types.ts `RateGroupResult`. -/
structure RateGroupResult where
  group : RateFactorGroup
  isApplied : Bool
  rate : ℚ
  factorResults : List RateFactorResult
deriving DecidableEq, Repr

/-- types.ts `RatingResult`. -/
structure RatingResult where
  finalRate : ℚ
  isSuccessful : Bool
  factorsApplied : ℕ
  groupResults : List RateGroupResult
  allFactorResults : List RateFactorResult
  breakdown : List String
  errors : List String
deriving DecidableEq, Repr

/-- types.ts `RaterErrorData` (the `code` is one of the `RaterErrorCode`
strings). -/
structure RaterErrorData where
  code : String
  factorId : Option String := none
  groupId : Option String := none
  field : Option String := none
deriving DecidableEq, Repr

/-- A thrown `RaterError`: an `Error` with message and attached `data`. -/
structure RaterError where
  message : String
  data : RaterErrorData
deriving DecidableEq, Repr

/-- helpers.ts `createRaterError` (the optional extra data argument is
specialised to the only shape used by the engine: an optional `groupId`). -/
def createRaterError (message : String) (code : String)
    (groupId : Option String := none) : RaterError :=
  { message, data := { code, groupId } }

/-- helpers.ts `evaluateRateCondition`: one predicate evaluated against the
subject.  The `switch` is translated to an equality chain; the `try/catch` is
dropped because no arm of the model can throw. -/
def evaluateRateCondition (subject : JSValue) (condition : RateCondition) :
    RateConditionResult :=
  let actualValue := getNestedValue subject condition.field
  if condition.operator = "equals" then
    { condition, isMet := actualValue = condition.value, actualValue }
  else if condition.operator = "notEquals" then
    { condition, isMet := actualValue ≠ condition.value, actualValue }
  else if condition.operator = "greaterThan" then
    match toNumber actualValue, toNumber condition.value with
    | some x, some y => { condition, isMet := x > y, actualValue }
    | _, _ => { condition, isMet := false, actualValue }
  else if condition.operator = "lessThan" then
    match toNumber actualValue, toNumber condition.value with
    | some x, some y => { condition, isMet := x < y, actualValue }
    | _, _ => { condition, isMet := false, actualValue }
  else if condition.operator = "greaterThanOrEqual" then
    match toNumber actualValue, toNumber condition.value with
    | some x, some y => { condition, isMet := x ≥ y, actualValue }
    | _, _ => { condition, isMet := false, actualValue }
  else if condition.operator = "lessThanOrEqual" then
    match toNumber actualValue, toNumber condition.value with
    | some x, some y => { condition, isMet := x ≤ y, actualValue }
    | _, _ => { condition, isMet := false, actualValue }
  else if condition.operator = "in" then
    match condition.value with
    | .arr elems => { condition, isMet := elems.contains actualValue, actualValue }
    | _ => { condition, isMet := false, actualValue }
  else if condition.operator = "notIn" then
    match condition.value with
    | .arr elems => { condition, isMet := !(elems.contains actualValue), actualValue }
    | _ => { condition, isMet := true, actualValue }
  else if condition.operator = "between" then
    match condition.value with
    | .arr (.cons lo (.cons hi .nil)) =>
      match toNumber actualValue, toNumber lo, toNumber hi with
      | some x, some mn, some mx =>
        { condition, isMet := decide (x ≥ mn) && decide (x ≤ mx), actualValue }
      | _, _, _ => { condition, isMet := false, actualValue }
    | _ => { condition, isMet := false, actualValue }
  else if condition.operator = "notBetween" then
    match condition.value with
    | .arr (.cons lo (.cons hi .nil)) =>
      match toNumber actualValue, toNumber lo, toNumber hi with
      | some x, some mn, some mx =>
        { condition, isMet := decide (x < mn) || decide (x > mx), actualValue }
      | _, _, _ => { condition, isMet := true, actualValue }
    | _ => { condition, isMet := false, actualValue }
  else
    { condition, isMet := false, actualValue,
      error := some ("Unknown operator: " ++ condition.operator) }

/-- helpers.ts `validateFactor`.  JS string truthiness: `!s` is true exactly
for the empty string, so `!x || x.trim() === ''` is `x.trim.isEmpty`. -/
def validateFactor (factor : RateFactor) : List String :=
  (if factor.id.trim.isEmpty then ["Factor must have an id"] else []) ++
  (if factor.label.trim.isEmpty then
    ["Factor " ++ factor.id ++ ": must have a label"] else []) ++
  (if factor.baseRate.isNone && factor.lookupTable.isNone &&
      factor.rangeTable.isNone && factor.fieldPath.isNone then
    ["Factor " ++ factor.id ++ ": must have baseRate, lookupTable, rangeTable, or fieldPath"]
  else []) ++
  (match factor.lookupTable with
   | some t =>
     (if t.field.isEmpty then
       ["Factor " ++ factor.id ++ ": lookupTable must have a field"] else []) ++
     (if t.values.isEmpty then
       ["Factor " ++ factor.id ++ ": lookupTable must have values"] else [])
   | none => []) ++
  (match factor.rangeTable with
   | some t =>
     (if t.field.isEmpty then
       ["Factor " ++ factor.id ++ ": rangeTable must have a field"] else []) ++
     (if t.ranges.isEmpty then
       ["Factor " ++ factor.id ++ ": rangeTable must have ranges"] else [])
   | none => []) ++
  (match factor.operation, factor.operand with
   | some op, none =>
     if op.isEmpty then [] else ["Factor " ++ factor.id ++ ": operation requires an operand"]
   | _, _ => [])

/-- helpers.ts `validateGroup`. -/
def validateGroup (group : RateFactorGroup) : List String :=
  (if group.id.trim.isEmpty then ["Group must have an id"] else []) ++
  (if group.label.trim.isEmpty then
    ["Group " ++ group.id ++ ": must have a label"] else []) ++
  (if group.factors.isEmpty then
    ["Group " ++ group.id ++ ": must have at least one factor"] else []) ++
  group.factors.foldl (fun errors factor => errors ++ validateFactor factor) []

namespace RatingEngine

/-- Model of `Math.pow` restricted to integer exponents (general rational
exponents are irrational and outside the `ℚ` model; no claim exercises them,
nor the `0 ^ negative` infinity case). -/
def jsPow (r e : ℚ) : ℚ := if e.den = 1 then r ^ e.num else 0

/-- `RatingEngine.applyOperation` (Engine.ts): one arithmetic transform; the
`switch` default arm makes an unknown operation the identity. -/
def applyOperation (rate : ℚ) (operation : String) (operand : ℚ) : ℚ :=
  if operation = "add" then rate + operand
  else if operation = "subtract" then rate - operand
  else if operation = "multiply" then rate * operand
  else if operation = "divide" then (if operand ≠ 0 then rate / operand else rate)
  else if operation = "percentage" then rate * (1 + operand / 100)
  else if operation = "percentageOf" then rate * (operand / 100)
  else if operation = "minimum" then min rate operand
  else if operation = "maximum" then max rate operand
  else if operation = "average" then (rate + operand) / 2
  else if operation = "power" then jsPow rate operand
  else if operation = "round" then (jsRound rate : ℚ)
  else if operation = "ceil" then (⌈rate⌉ : ℚ)
  else if operation = "floor" then (⌊rate⌋ : ℚ)
  else rate

/-- `Math.min(...rates)` over a non-empty list (the engine only spreads
non-empty lists into it). -/
def listMin : List ℚ → ℚ
  | [] => 0
  | x :: xs => xs.foldl min x

/-- `Math.max(...rates)` over a non-empty list. -/
def listMax : List ℚ → ℚ
  | [] => 0
  | x :: xs => xs.foldl max x

/-- `RatingEngine.aggregate` (Engine.ts): combine rates by method; empty
input short-circuits to `0` before the method is consulted, and the `switch`
default arm returns `rates[0] ?? 0`. -/
def aggregate (rates : List ℚ) (method : String) : ℚ :=
  if rates.length = 0 then 0
  else if method = "sum" then rates.foldl (fun sum rate => sum + rate) 0
  else if method = "product" then rates.foldl (fun product rate => product * rate) 1
  else if method = "average" then rates.foldl (fun sum rate => sum + rate) 0 / (rates.length : ℚ)
  else if method = "minimum" then listMin rates
  else if method = "maximum" then listMax rates
  else rates.headD 0

/-- `RatingEngine.#resolveFactorRate`, stage 1: the `fieldPath` source.
JS truthiness of `factor.fieldPath` rejects the empty string. -/
def fieldPathValue (subject : JSValue) (factor : RateFactor) : Option ℚ :=
  match factor.fieldPath with
  | some p => if p.isEmpty then none else toNumber (getNestedValue subject p)
  | none => none

/-- `RatingEngine.#resolveFactorRate`, stage 2: the `lookupTable` source. -/
def lookupValue (subject : JSValue) (factor : RateFactor) : Option ℚ :=
  match factor.lookupTable with
  | some t =>
    let keyValue := getNestedValue subject t.field
    let key := toLookupKey keyValue
    match t.values.lookup key with
    | some rate => some rate
    | none => t.defaultValue
  | none => none

/-- Bounds test of one range row: absent bound means unbounded, present
bounds are inclusive. -/
def rangeMatches (range : RateRange) (n : ℚ) : Bool :=
  (match range.minimum with | none => true | some m => decide (n ≥ m)) &&
  (match range.maximum with | none => true | some m => decide (n ≤ m))

/-- `RatingEngine.#resolveFactorRate`, stage 3: the `rangeTable` source —
first matching range in declared order wins, else the table's default. -/
def rangeValue (subject : JSValue) (factor : RateFactor) : Option ℚ :=
  match factor.rangeTable with
  | some t =>
    match toNumber (getNestedValue subject t.field) with
    | some n =>
      match t.ranges.find? (fun range => rangeMatches range n) with
      | some range => some range.rate
      | none => t.defaultRate
    | none => t.defaultRate
  | none => none

/-- `RatingEngine.#resolveFactorRate`: fixed priority order
fieldPath > lookupTable > rangeTable > baseRate, final fallback `0`. -/
def resolveFactorRate (subject : JSValue) (factor : RateFactor) : ℚ :=
  match fieldPathValue subject factor with
  | some n => n
  | none =>
    match lookupValue subject factor with
    | some n => n
    | none =>
      match rangeValue subject factor with
      | some n => n
      | none => factor.baseRate.getD 0

/-- `RatingEngine.rateFactor`, body after the destroyed check.  It cannot
throw: every branch returns a result. -/
def rateFactorCore (subject : JSValue) (factor : RateFactor) : RateFactorResult :=
  if factor.enabled = some false then
    { factor, isApplied := false, rate := 0 }
  else
    let conditionResults : Option (List RateConditionResult) :=
      match factor.conditions with
      | some cs =>
        if cs.length > 0 then some (cs.map (evaluateRateCondition subject)) else none
      | none => none
    let pipeline : ℚ :=
      let rate := resolveFactorRate subject factor
      let rate :=
        match factor.operation, factor.operand with
        | some op, some x => if op.isEmpty then rate else applyOperation rate op x
        | _, _ => rate
      clamp rate factor.minimumRate factor.maximumRate
    match conditionResults with
    | some results =>
      if results.all (fun r => r.isMet) then
        { factor, isApplied := true, rate := pipeline, conditionResults := some results }
      else
        { factor, isApplied := false, rate := 0, conditionResults := some results }
    | none =>
      { factor, isApplied := true, rate := pipeline }

/-- Effective sort key of a factor: `priority ?? 0`. -/
def factorPriority (f : RateFactor) : ℚ := f.priority.getD 0

/-- The stable ascending sort `[...group.factors].sort((a, b) => pa - pb)`
(JS `Array.prototype.sort` is stable; a numeric-difference comparator sorts
ascending), modelled by the stable `List.insertionSort`. -/
def sortFactorsByPriority (factors : List RateFactor) : List RateFactor :=
  List.insertionSort (fun a b => factorPriority a ≤ factorPriority b) factors

/-- `RatingEngine.rateGroup`, body after the destroyed check.  The only throw
site inside the factor loop is `rateFactor`'s own destroyed check, which
cannot fire here because the flag was already checked and nothing mutates it
mid-call, so the loop's `try/catch` is unreachable and the body is total. -/
def rateGroupCore (subject : JSValue) (group : RateFactorGroup) : RateGroupResult :=
  let sortedFactors := sortFactorsByPriority group.factors
  let factorResults := sortedFactors.map (rateFactorCore subject)
  let requireAllFails :=
    group.requireAll = some true &&
      !(factorResults.all (fun r => r.isApplied || !(r.factor.required = some true)))
  if requireAllFails then
    { group, isApplied := false, rate := 0, factorResults }
  else
    let appliedRates := (factorResults.filter (fun r => r.isApplied)).map (fun r => r.rate)
    if appliedRates.length = 0 then
      { group, isApplied := false, rate := group.baseRate.getD 0, factorResults }
    else
      let aggregated := aggregate appliedRates group.aggregationMethod
      let rate :=
        match group.baseRate with
        | some b => aggregate [b, aggregated] group.aggregationMethod
        | none => aggregated
      { group, isApplied := true, rate, factorResults }

end RatingEngine

/-- constants.ts defaults together with the constructor's option fallbacks
(Engine.ts lines 59–65): the immutable private configuration fields. -/
structure EngineConfig where
  baseRate : ℚ := 0
  groupAggregationMethod : String := "sum"
  minimumRate : Option ℚ := none
  maximumRate : Option ℚ := none
  decimalPlaces : ℤ := 2
  continueOnError : Bool := true
deriving DecidableEq, Repr

/-- The engine's mutable private state: the two listener `Set`s (function
references modelled by numeric identities, insertion-ordered and
duplicate-free as JS `Set` is) and the destroyed flag. -/
structure EngineState where
  rateListeners : List ℕ := []
  errorListeners : List ℕ := []
  isDestroyed : Bool := false
deriving DecidableEq, Repr

/-- JS `Set.prototype.add`: appends unless already present. -/
def jsSetAdd (s : List ℕ) (x : ℕ) : List ℕ :=
  if x ∈ s then s else s ++ [x]

/-- JS `Set.prototype.delete`. -/
def jsSetDelete (s : List ℕ) (x : ℕ) : List ℕ := s.erase x

namespace RatingEngine

/-- `RatingEngine.onRate` (Engine.ts lines 100–105): registers the callback;
no destroyed check is made.  The returned unsubscribe closure is
`onRateUnsubscribe`. -/
def onRate (st : EngineState) (callback : ℕ) : EngineState :=
  { st with rateListeners := jsSetAdd st.rateListeners callback }

/-- The unsubscribe closure returned by `onRate`. -/
def onRateUnsubscribe (callback : ℕ) (st : EngineState) : EngineState :=
  { st with rateListeners := jsSetDelete st.rateListeners callback }

/-- `RatingEngine.onError` (Engine.ts lines 107–112). -/
def onError (st : EngineState) (callback : ℕ) : EngineState :=
  { st with errorListeners := jsSetAdd st.errorListeners callback }

/-- The unsubscribe closure returned by `onError`. -/
def onErrorUnsubscribe (callback : ℕ) (st : EngineState) : EngineState :=
  { st with errorListeners := jsSetDelete st.errorListeners callback }

/-- `RatingEngine.destroy` (Engine.ts lines 411–415): set the flag, clear the
listener sets; no destroyed check of its own. -/
def destroy (st : EngineState) : EngineState :=
  { st with isDestroyed := true, rateListeners := [], errorListeners := [] }

/-- `RatingEngine.#assertNotDestroyed`. -/
def assertNotDestroyed (st : EngineState) : Except RaterError Unit :=
  if st.isDestroyed then
    .error (createRaterError "Rating engine has been destroyed" "UNKNOWN")
  else
    .ok ()

/-- `RatingEngine.rateFactor` as the public method (destroyed check, then the
total body). -/
def rateFactor (st : EngineState) (subject : JSValue) (factor : RateFactor) :
    Except RaterError RateFactorResult := do
  let _ ← assertNotDestroyed st
  return rateFactorCore subject factor

/-- `RatingEngine.rateGroup` as the public method. -/
def rateGroup (st : EngineState) (subject : JSValue) (group : RateFactorGroup) :
    Except RaterError RateGroupResult := do
  let _ ← assertNotDestroyed st
  return rateGroupCore subject group

/-- `RatingEngine.evaluateCondition` as the public method. -/
def evaluateCondition (st : EngineState) (subject : JSValue)
    (condition : RateCondition) : Except RaterError RateConditionResult := do
  let _ ← assertNotDestroyed st
  return evaluateRateCondition subject condition

/-- `RatingEngine.validateGroups` as the public method. -/
def validateGroups (st : EngineState) (groups : List RateFactorGroup) :
    Except RaterError (List String) := do
  let _ ← assertNotDestroyed st
  return groups.foldl (fun errors group => errors ++ validateGroup group) []

/-- `RatingEngine.applyOperation` as the public method.  The source body
(Engine.ts lines 333–368) contains no `#assertNotDestroyed` call, so the
method cannot throw; it is wrapped in `Except` only to share the calling
convention of the other public operations. -/
def applyOperationMethod (st : EngineState) (rate : ℚ) (operation : String)
    (operand : ℚ) : Except RaterError ℚ :=
  .ok (applyOperation rate operation operand)

/-- `RatingEngine.aggregate` as the public method; like `applyOperation`, its
source body (Engine.ts lines 370–394) performs no destroyed check. -/
def aggregateMethod (st : EngineState) (rates : List ℚ) (method : String) :
    Except RaterError ℚ :=
  .ok (aggregate rates method)

/-- Mutable accumulator of the group loop inside `RatingEngine.rate`
(Engine.ts lines 122–155).  `emittedErrors` is the observable trace of
`#emitError` calls; `halted` records that the `break` statement ran. -/
structure RateLoopState where
  groupResults : List RateGroupResult := []
  allFactorResults : List RateFactorResult := []
  breakdown : List String := []
  errors : List String := []
  emittedErrors : List RaterError := []
  halted : Bool := false
deriving DecidableEq, Repr

/-- One iteration of the group loop of `RatingEngine.rate`, parameterised by
the group evaluator `ev` (in the engine, `this.rateGroup`; the parameter
makes the `try/catch` arms statable).  A previously executed `break` skips
the iteration.  On success: append the group result, flatten its factor
results, log a breakdown line when applied, and collect per-factor error
strings.  On a thrown error: record `Group "<id>": <message>` and — only when
`continueOnError` is false — emit a `CALCULATION_FAILED` error event and
`break`. -/
def rateStep (cfg : EngineConfig)
    (ev : RateFactorGroup → Except RaterError RateGroupResult)
    (st : RateLoopState) (group : RateFactorGroup) : RateLoopState :=
  if st.halted then st
  else
    match ev group with
    | .ok groupResult =>
      { st with
        groupResults := st.groupResults ++ [groupResult]
        allFactorResults := st.allFactorResults ++ groupResult.factorResults
        breakdown :=
          if groupResult.isApplied then
            st.breakdown ++
              ["Group \"" ++ group.label ++ "\": " ++ ratToString groupResult.rate]
          else st.breakdown
        errors :=
          st.errors ++ groupResult.factorResults.filterMap (fun r => r.error) }
    | .error err =>
      let errorMessage := err.message
      let recorded :=
        { st with errors := st.errors ++ ["Group \"" ++ group.id ++ "\": " ++ errorMessage] }
      if !cfg.continueOnError then
        { recorded with
          emittedErrors :=
            recorded.emittedErrors ++
              [createRaterError errorMessage "CALCULATION_FAILED" (some group.id)]
          halted := true }
      else recorded

/-- The whole group loop of `RatingEngine.rate`, starting from the initial
breakdown line. -/
def rateLoop (cfg : EngineConfig)
    (ev : RateFactorGroup → Except RaterError RateGroupResult)
    (groups : List RateFactorGroup) : RateLoopState :=
  groups.foldl (rateStep cfg ev)
    { breakdown := ["Starting with base rate: " ++ ratToString cfg.baseRate] }

/-- Tail of `RatingEngine.rate` after the group loop (Engine.ts lines
157–189): aggregate the applied group rates (falling back to the engine base
rate), round, clamp, and assemble the `RatingResult`. -/
def finalizeRate (cfg : EngineConfig) (st : RateLoopState) : RatingResult :=
  let appliedGroupRates :=
    (st.groupResults.filter (fun r => r.isApplied)).map (fun r => r.rate)
  let finalRate :=
    if appliedGroupRates.length = 0 then cfg.baseRate
    else aggregate appliedGroupRates cfg.groupAggregationMethod
  let finalRate := roundToDecimalPlaces finalRate cfg.decimalPlaces
  let finalRate := clamp finalRate cfg.minimumRate cfg.maximumRate
  let breakdown := st.breakdown ++ ["Final rate: " ++ ratToString finalRate]
  let factorsApplied := (st.allFactorResults.filter (fun r => r.isApplied)).length
  { finalRate
    isSuccessful := st.errors.length = 0
    factorsApplied
    groupResults := st.groupResults
    allFactorResults := st.allFactorResults
    breakdown
    errors := st.errors }

/-- `RatingEngine.rate` as the public method: destroyed check, group loop
with the engine's own `rateGroup` as evaluator, then finalisation.  (The
closing `#emitRate` broadcast carries the returned result to `rateListeners`
and does not alter it.) -/
def rate (cfg : EngineConfig) (st : EngineState) (subject : JSValue)
    (groups : List RateFactorGroup) : Except RaterError RatingResult := do
  let _ ← assertNotDestroyed st
  return finalizeRate cfg (rateLoop cfg (fun g => rateGroup st subject g) groups)

end RatingEngine

/-- C7: for every aggregation method — the five known ones and any unknown
string — `aggregate [] method = 0` (the empty-input rule precedes the
`product` identity `1`), and an unknown method on a non-empty list returns
the first element. -/
theorem aggregate_empty_zero_unknown_first :
    (∀ method : String, RatingEngine.aggregate [] method = 0) ∧
    (∀ (method : String) (r : ℚ) (rs : List ℚ),
      method ≠ "sum" → method ≠ "product" → method ≠ "average" →
      method ≠ "minimum" → method ≠ "maximum" →
      RatingEngine.aggregate (r :: rs) method = r) := by
  refine ⟨fun method => rfl, fun method r rs h1 h2 h3 h4 h5 => ?_⟩
  simp [RatingEngine.aggregate, h1, h2, h3, h4, h5]

/-- C7 witness: the empty-input rule beats the product identity, and an
unknown method returns the head of a non-empty list. -/
theorem aggregate_empty_zero_unknown_first_witness :
    RatingEngine.aggregate [] "product" = 0 ∧
    RatingEngine.aggregate [7, 3] "median" = 7 :=
  ⟨aggregate_empty_zero_unknown_first.1 "product",
   aggregate_empty_zero_unknown_first.2 "median" 7 [3]
     (by decide) (by decide) (by decide) (by decide) (by decide)⟩

/-- C8: `clamp` is idempotent on the result of `roundToDecimalPlaces`, for
arbitrary optional bounds — including `min > max`, where the min-then-max
order still yields a fixed point (and no failure is possible). -/
theorem clamp_round_idempotent (x : ℚ) (d : ℤ) (mn mx : Option ℚ) :
    clamp (clamp (roundToDecimalPlaces x d) mn mx) mn mx
      = clamp (roundToDecimalPlaces x d) mn mx := by
  generalize roundToDecimalPlaces x d = y
  rcases mn with _ | m <;> rcases mx with _ | M <;>
    simp only [clamp] <;> split_ifs <;> first | rfl | linarith

/-- C3: for a `notBetween` condition with a 2-element pair, `isMet` is the
negation of the `between` test when the actual value and both bounds coerce
to numbers and defaults to `true` whenever any of the three coercions fails;
for a `between` condition whose coerced bounds are reversed (`lo > hi`) no
actual value is ever met. -/
theorem notBetween_negation_and_reversed_bounds
    (subject : JSValue) (f : String) (a b : JSValue) :
    (∀ x lo hi, toNumber (getNestedValue subject f) = some x →
      toNumber a = some lo → toNumber b = some hi →
      (evaluateRateCondition subject
          { field := f, operator := "notBetween",
            value := .arr (.cons a (.cons b .nil)) }).isMet
        = !(decide (lo ≤ x) && decide (x ≤ hi))) ∧
    ((toNumber (getNestedValue subject f) = none ∨ toNumber a = none ∨ toNumber b = none) →
      (evaluateRateCondition subject
          { field := f, operator := "notBetween",
            value := .arr (.cons a (.cons b .nil)) }).isMet = true) ∧
    (∀ lo hi, toNumber a = some lo → toNumber b = some hi → hi < lo →
      (evaluateRateCondition subject
          { field := f, operator := "between",
            value := .arr (.cons a (.cons b .nil)) }).isMet = false) := by
  refine ⟨?_, ?_, ?_⟩
  · intro x lo hi hx ha hb
    simp only [evaluateRateCondition, hx, ha, hb]
    norm_num
    rcases lt_or_le x lo with h1 | h1
    · simp [h1, not_le.mpr h1]
    · rcases lt_or_le hi x with h2 | h2
      · simp [h1, h2, not_lt.mpr h1, not_le.mpr h2]
      · simp [h1, h2, not_lt.mpr h1, not_lt.mpr h2]
  · intro hfail
    simp only [evaluateRateCondition]
    norm_num
    rcases hx : toNumber (getNestedValue subject f) with _ | x <;>
      rcases ha : toNumber a with _ | lo <;>
      rcases hb : toNumber b with _ | hi <;>
      simp at hfail ⊢ <;>
      first
      | rfl
      | (exfalso; rcases hfail with h | h | h <;> simp_all)
  · intro lo hi ha hb hrev
    simp only [evaluateRateCondition, ha, hb]
    norm_num
    rcases hx : toNumber (getNestedValue subject f) with _ | x
    · rfl
    · rcases le_or_lt lo x with h1 | h1
      · simp [h1, not_le.mpr (lt_of_lt_of_le hrev h1)]
      · simp [not_le.mpr h1]

/-- Subject `{ v: 5 }` used by the C3 witness. -/
def subjC3 : JSValue := .obj (.cons "v" (.num 5) .nil)

/-- C3 witness: 5 is inside [1,10] so `notBetween` is false; a non-coercible
bound defaults `notBetween` to true; reversed bounds [10,1] make `between`
false even at a value inside the sorted interval. -/
theorem notBetween_negation_and_reversed_bounds_witness :
    (evaluateRateCondition subjC3
        { field := "v", operator := "notBetween",
          value := .arr (.cons (.num 1) (.cons (.num 10) .nil)) }).isMet = false ∧
    (evaluateRateCondition subjC3
        { field := "v", operator := "notBetween",
          value := .arr (.cons (.str "x") (.cons (.num 10) .nil)) }).isMet = true ∧
    (evaluateRateCondition subjC3
        { field := "v", operator := "between",
          value := .arr (.cons (.num 10) (.cons (.num 1) .nil)) }).isMet = false := by
  refine ⟨?_, ?_, ?_⟩
  · rw [(notBetween_negation_and_reversed_bounds subjC3 "v" (.num 1) (.num 10)).1
      5 1 10 (by decide) (by decide) (by decide)]
    decide
  · exact (notBetween_negation_and_reversed_bounds subjC3 "v" (.str "x") (.num 10)).2.1
      (Or.inr (Or.inl (by decide)))
  · exact (notBetween_negation_and_reversed_bounds subjC3 "v" (.num 10) (.num 1)).2.2
      10 1 (by decide) (by decide) (by decide)

/-- C5: factor rate resolution follows the fixed priority order
fieldPath > lookupTable > rangeTable > baseRate; a present fieldPath whose
subject value does not coerce to a number falls through to the next source,
and when every source misses the resolved value is `0`, not an error. -/
theorem resolve_priority_order (subject : JSValue) (factor : RateFactor) :
    (∀ p n, factor.fieldPath = some p → ¬ p.isEmpty →
      toNumber (getNestedValue subject p) = some n →
      RatingEngine.resolveFactorRate subject factor = n) ∧
    (∀ p, factor.fieldPath = some p → ¬ p.isEmpty →
      toNumber (getNestedValue subject p) = none →
      RatingEngine.fieldPathValue subject factor = none) ∧
    (∀ n, RatingEngine.fieldPathValue subject factor = none →
      RatingEngine.lookupValue subject factor = some n →
      RatingEngine.resolveFactorRate subject factor = n) ∧
    (∀ n, RatingEngine.fieldPathValue subject factor = none →
      RatingEngine.lookupValue subject factor = none →
      RatingEngine.rangeValue subject factor = some n →
      RatingEngine.resolveFactorRate subject factor = n) ∧
    (RatingEngine.fieldPathValue subject factor = none →
      RatingEngine.lookupValue subject factor = none →
      RatingEngine.rangeValue subject factor = none →
      RatingEngine.resolveFactorRate subject factor = factor.baseRate.getD 0) ∧
    (RatingEngine.fieldPathValue subject factor = none →
      RatingEngine.lookupValue subject factor = none →
      RatingEngine.rangeValue subject factor = none →
      factor.baseRate = none →
      RatingEngine.resolveFactorRate subject factor = 0) := by
  refine ⟨?_, ?_, ?_, ?_, ?_, ?_⟩
  · intro p n hp hne hn
    simp [RatingEngine.resolveFactorRate, RatingEngine.fieldPathValue, hp, hne, hn]
  · intro p hp hne hn
    simp [RatingEngine.fieldPathValue, hp, hne, hn]
  · intro n h1 h2
    simp [RatingEngine.resolveFactorRate, h1, h2]
  · intro n h1 h2 h3
    simp [RatingEngine.resolveFactorRate, h1, h2, h3]
  · intro h1 h2 h3
    simp [RatingEngine.resolveFactorRate, h1, h2, h3]
  · intro h1 h2 h3 h4
    simp [RatingEngine.resolveFactorRate, h1, h2, h3, h4]

/-- Subject `{ x: 7, k: "gold", s: 50 }` used by the C5 witness. -/
def subjC5 : JSValue :=
  .obj (.cons "x" (.num 7) (.cons "k" (.str "gold") (.cons "s" (.num 50) .nil)))

/-- A factor whose `fieldPath` hits a numeric subject value while a lookup
table and base rate are also present. -/
def fFieldC5 : RateFactor :=
  { id := "f1", label := "F1", fieldPath := some "x",
    lookupTable := some { field := "k", values := [("gold", 2)] },
    baseRate := some 9 }

/-- A factor whose `fieldPath` misses (no such subject key) but whose lookup
table hits. -/
def fFallC5 : RateFactor :=
  { id := "f2", label := "F2", fieldPath := some "m",
    lookupTable := some { field := "k", values := [("gold", 2)] } }

/-- A factor resolved by its range table. -/
def fRangeC5 : RateFactor :=
  { id := "f3", label := "F3",
    rangeTable := some
      { field := "s",
        ranges := [{ minimum := some 0, maximum := some 49, rate := 50 },
                   { minimum := some 50, maximum := some 99, rate := 100 }] } }

/-- A factor whose only source is a lookup table that misses with no
default. -/
def fMissC5 : RateFactor :=
  { id := "f4", label := "F4",
    lookupTable := some { field := "k", values := [("silver", 3)] } }

/-- C5 witness: the fieldPath wins over lookup/baseRate when it coerces, a
non-coercible fieldPath value falls through to a lookup hit, a range row is
matched inclusively, and a full miss resolves to 0. -/
theorem resolve_priority_order_witness :
    RatingEngine.resolveFactorRate subjC5 fFieldC5 = 7 ∧
    RatingEngine.fieldPathValue subjC5 fFallC5 = none ∧
    RatingEngine.resolveFactorRate subjC5 fFallC5 = 2 ∧
    RatingEngine.resolveFactorRate subjC5 fRangeC5 = 100 ∧
    RatingEngine.resolveFactorRate subjC5 fMissC5 = 0 := by
  refine ⟨?_, ?_, ?_, ?_, ?_⟩
  · exact (resolve_priority_order subjC5 fFieldC5).1 "x" 7 rfl (by decide) (by decide)
  · exact (resolve_priority_order subjC5 fFallC5).2.1 "m" rfl (by decide) (by decide)
  · exact (resolve_priority_order subjC5 fFallC5).2.2.1 2 (by decide) (by decide)
  · exact (resolve_priority_order subjC5 fRangeC5).2.2.2.1 100
      (by decide) (by decide) (by decide)
  · exact (resolve_priority_order subjC5 fMissC5).2.2.2.2.2
      (by decide) (by decide) (by decide) rfl

/-- C10: a factor that is not applied — disabled, or with an unmet condition
— reports exactly rate `0`; the `minimumRate`/`maximumRate` clamp never runs
on this path (the bounds are arbitrary in this statement, so a positive
`minimumRate` cannot lift the reported 0). -/
theorem not_applied_factor_rate_zero (subject : JSValue) (factor : RateFactor)
    (h : factor.enabled = some false ∨
      ∃ cs, factor.conditions = some cs ∧ 0 < cs.length ∧
        (cs.map (evaluateRateCondition subject)).all (fun r => r.isMet) = false) :
    (RatingEngine.rateFactorCore subject factor).isApplied = false ∧
    (RatingEngine.rateFactorCore subject factor).rate = 0 := by
  unfold RatingEngine.rateFactorCore
  rcases h with h | ⟨cs, hcs, hlen, hmet⟩
  · simp [h]
  · by_cases he : factor.enabled = some false
    · simp [he]
    · simp [he, hcs, hlen, hmet]

/-- Disabled factor with a positive `minimumRate`, for the C10 witness. -/
def fC10a : RateFactor :=
  { id := "d1", label := "D1", baseRate := some 3, enabled := some false,
    minimumRate := some 5 }

/-- Factor with an unmet condition and a positive `minimumRate`, for the C10
witness. -/
def fC10b : RateFactor :=
  { id := "d2", label := "D2", baseRate := some 3, minimumRate := some 5,
    conditions := some [{ field := "x", operator := "equals", value := .num 1 }] }

/-- C10 witness: disabled and condition-failed factors both report rate 0
even though their `minimumRate` is 5. -/
theorem not_applied_factor_rate_zero_witness :
    ((RatingEngine.rateFactorCore (.obj .nil) fC10a).isApplied = false ∧
      (RatingEngine.rateFactorCore (.obj .nil) fC10a).rate = 0) ∧
    ((RatingEngine.rateFactorCore (.obj .nil) fC10b).isApplied = false ∧
      (RatingEngine.rateFactorCore (.obj .nil) fC10b).rate = 0) ∧
    fC10a.minimumRate = some 5 ∧ fC10b.minimumRate = some 5 :=
  ⟨not_applied_factor_rate_zero (.obj .nil) fC10a (Or.inl rfl),
   not_applied_factor_rate_zero (.obj .nil) fC10b
     (Or.inr ⟨_, rfl, by decide, by decide⟩),
   rfl, rfl⟩

/-- C9: the subscription and lifecycle operations never consult the destroyed
flag (their bodies are total, with no `#assertNotDestroyed` call): after
`destroy()` a callback is still registered into the (cleared) listener set,
the returned unsubscribe closure removes it again, registering never flips
the destroyed flag back, and `destroy()` is idempotent. -/
theorem subscriptions_ignore_destroyed (st : EngineState) (cb : ℕ) :
    (RatingEngine.onRate (RatingEngine.destroy st) cb).rateListeners = [cb] ∧
    (RatingEngine.onError (RatingEngine.destroy st) cb).errorListeners = [cb] ∧
    (RatingEngine.onRate st cb).isDestroyed = st.isDestroyed ∧
    (RatingEngine.onError st cb).isDestroyed = st.isDestroyed ∧
    cb ∈ (RatingEngine.onRate st cb).rateListeners ∧
    cb ∈ (RatingEngine.onError st cb).errorListeners ∧
    (cb ∉ st.rateListeners →
      RatingEngine.onRateUnsubscribe cb (RatingEngine.onRate st cb) = st) ∧
    (cb ∉ st.errorListeners →
      RatingEngine.onErrorUnsubscribe cb (RatingEngine.onError st cb) = st) ∧
    RatingEngine.destroy (RatingEngine.destroy st) = RatingEngine.destroy st := by
  refine ⟨?_, ?_, rfl, rfl, ?_, ?_, ?_, ?_, rfl⟩
  · simp [RatingEngine.onRate, RatingEngine.destroy, jsSetAdd]
  · simp [RatingEngine.onError, RatingEngine.destroy, jsSetAdd]
  · by_cases h : cb ∈ st.rateListeners <;> simp [RatingEngine.onRate, jsSetAdd, h]
  · by_cases h : cb ∈ st.errorListeners <;> simp [RatingEngine.onError, jsSetAdd, h]
  · intro hnot
    simp [RatingEngine.onRate, RatingEngine.onRateUnsubscribe, jsSetAdd, jsSetDelete,
      hnot, List.erase_append_right _ hnot]
  · intro hnot
    simp [RatingEngine.onError, RatingEngine.onErrorUnsubscribe, jsSetAdd, jsSetDelete,
      hnot, List.erase_append_right _ hnot]

/-- C9 witness: concrete empty-state instances of the registration,
unsubscribe round-trip, and double-destroy facts. -/
theorem subscriptions_ignore_destroyed_witness :
    (RatingEngine.onRate (RatingEngine.destroy {}) 1).rateListeners = [1] ∧
    RatingEngine.onRateUnsubscribe 1 (RatingEngine.onRate {} 1) = ({} : EngineState) ∧
    RatingEngine.onErrorUnsubscribe 1 (RatingEngine.onError {} 1) = ({} : EngineState) ∧
    RatingEngine.destroy (RatingEngine.destroy {}) = RatingEngine.destroy {} :=
  ⟨(subscriptions_ignore_destroyed {} 1).1,
   (subscriptions_ignore_destroyed {} 1).2.2.2.2.2.2.1 (by decide),
   (subscriptions_ignore_destroyed {} 1).2.2.2.2.2.2.2.1 (by decide),
   (subscriptions_ignore_destroyed {} 1).2.2.2.2.2.2.2.2⟩

/-- The error thrown by `#assertNotDestroyed`. -/
def destroyedError : RaterError :=
  createRaterError "Rating engine has been destroyed" "UNKNOWN"

/-- A freshly destroyed engine state. -/
def stDestroyed : EngineState := RatingEngine.destroy {}

/-- Argument group for the C1 witness. -/
def gC1 : RateFactorGroup :=
  { id := "g", label := "G", factors := [], aggregationMethod := "sum" }

/-- Argument factor for the C1 witness. -/
def fC1 : RateFactor := { id := "f", label := "F" }

/-- Argument condition for the C1 witness. -/
def cndC1 : RateCondition := { field := "x", operator := "equals", value := .num 1 }

/-- C1 (amended): on a destroyed instance `rate`, `rateFactor`, `rateGroup`,
`evaluateCondition` and `validateGroups` all fail with the `UNKNOWN`-coded
"destroyed" error, while the math/aggregation passthroughs `applyOperation`
and `aggregate` perform no destroyed check and return their ordinary
results. -/
theorem destroyed_guard_coverage (cfg : EngineConfig) (st : EngineState)
    (h : st.isDestroyed = true) :
    (∀ subject groups, RatingEngine.rate cfg st subject groups = .error destroyedError) ∧
    (∀ subject factor,
      RatingEngine.rateFactor st subject factor = .error destroyedError) ∧
    (∀ subject group,
      RatingEngine.rateGroup st subject group = .error destroyedError) ∧
    (∀ subject condition,
      RatingEngine.evaluateCondition st subject condition = .error destroyedError) ∧
    (∀ groups, RatingEngine.validateGroups st groups = .error destroyedError) ∧
    destroyedError.data.code = "UNKNOWN" ∧
    destroyedError.message = "Rating engine has been destroyed" ∧
    (∀ rate operation operand,
      RatingEngine.applyOperationMethod st rate operation operand
        = .ok (RatingEngine.applyOperation rate operation operand)) ∧
    (∀ rates method,
      RatingEngine.aggregateMethod st rates method
        = .ok (RatingEngine.aggregate rates method)) := by
  refine ⟨?_, ?_, ?_, ?_, ?_, rfl, rfl, fun _ _ _ => rfl, fun _ _ => rfl⟩ <;> intros <;>
    simp [RatingEngine.rate, RatingEngine.rateFactor, RatingEngine.rateGroup,
      RatingEngine.evaluateCondition, RatingEngine.validateGroups,
      RatingEngine.assertNotDestroyed, h, destroyedError]

/-- C1 counterexample to the claim as stated: on a destroyed instance the
`applyOperation` and `aggregate` passthroughs do NOT raise the destroyed
error — they return ordinary `.ok` results, because their bodies never call
`#assertNotDestroyed`. -/
theorem destroyed_guard_coverage_counterexample :
    RatingEngine.applyOperationMethod stDestroyed 5 "add" 3
      = .ok (RatingEngine.applyOperation 5 "add" 3) ∧
    RatingEngine.aggregateMethod stDestroyed [1, 2] "sum"
      = .ok (RatingEngine.aggregate [1, 2] "sum") ∧
    RatingEngine.applyOperationMethod stDestroyed 5 "add" 3 ≠ .error destroyedError ∧
    RatingEngine.aggregateMethod stDestroyed [1, 2] "sum" ≠ .error destroyedError ∧
    stDestroyed.isDestroyed = true :=
  ⟨rfl, rfl, fun hcontra => Except.noConfusion hcontra,
   fun hcontra => Except.noConfusion hcontra, rfl⟩

/-- C1 witness: the five guarded operations all fail with the destroyed
error on a destroyed instance. -/
theorem destroyed_guard_coverage_witness :
    RatingEngine.rate {} stDestroyed (.obj .nil) [gC1] = .error destroyedError ∧
    RatingEngine.rateFactor stDestroyed (.obj .nil) fC1 = .error destroyedError ∧
    RatingEngine.rateGroup stDestroyed (.obj .nil) gC1 = .error destroyedError ∧
    RatingEngine.evaluateCondition stDestroyed (.obj .nil) cndC1 = .error destroyedError ∧
    RatingEngine.validateGroups stDestroyed [gC1] = .error destroyedError :=
  ⟨(destroyed_guard_coverage {} stDestroyed rfl).1 (.obj .nil) [gC1],
   (destroyed_guard_coverage {} stDestroyed rfl).2.1 (.obj .nil) fC1,
   (destroyed_guard_coverage {} stDestroyed rfl).2.2.1 (.obj .nil) gC1,
   (destroyed_guard_coverage {} stDestroyed rfl).2.2.2.1 (.obj .nil) cndC1,
   (destroyed_guard_coverage {} stDestroyed rfl).2.2.2.2.1 [gC1]⟩

/-- Default configuration (`continueOnError = true`) for the C2 analysis. -/
def cfgC2 : EngineConfig := {}

/-- A strict configuration (`continueOnError = false`) for the C2 witness. -/
def cfgC2strict : EngineConfig := { continueOnError := false }

/-- A group whose evaluation will be made to raise in the C2 analysis. -/
def gC2 : RateFactorGroup :=
  { id := "g1", label := "G1", factors := [], aggregationMethod := "sum" }

/-- A group evaluator that always raises, standing for a `rateGroup` call
that throws. -/
def evC2 : RateFactorGroup → Except RaterError RateGroupResult :=
  fun _ => .error (createRaterError "boom" "CALCULATION_FAILED")

/-- C2 counterexample to the claim as stated: with `continueOnError = true`
a raising group records its error and processing continues, but NO error
event is emitted — the `#emitError` call sits inside the
`!continueOnError` branch only. -/
theorem rate_error_handling_counterexample :
    (RatingEngine.rateLoop cfgC2 evC2 [gC2]).errors = ["Group \"g1\": boom"] ∧
    (RatingEngine.rateLoop cfgC2 evC2 [gC2]).emittedErrors = [] ∧
    (RatingEngine.rateLoop cfgC2 evC2 [gC2]).halted = false ∧
    cfgC2.continueOnError = true := by
  refine ⟨?_, ?_, ?_, rfl⟩ <;> rfl

/-- C2 (amended): when a group's evaluation raises inside `rate`'s loop, the
error is recorded as `Group "<id>": <message>` in both modes; with
`continueOnError = true` processing simply continues (no group result, no
error event); with `continueOnError = false` a `CALCULATION_FAILED` error
event is emitted and the loop breaks, skipping every later group; and
`rate` itself never re-raises — on a non-destroyed instance it returns
normally. -/
theorem rate_error_handling (cfg : EngineConfig)
    (ev : RateFactorGroup → Except RaterError RateGroupResult)
    (st : RatingEngine.RateLoopState) (g : RateFactorGroup) (e : RaterError)
    (hh : st.halted = false) (hev : ev g = .error e) :
    (cfg.continueOnError = true →
      RatingEngine.rateStep cfg ev st g =
        { st with errors := st.errors ++ ["Group \"" ++ g.id ++ "\": " ++ e.message] }) ∧
    (cfg.continueOnError = false →
      RatingEngine.rateStep cfg ev st g =
        { st with
            errors := st.errors ++ ["Group \"" ++ g.id ++ "\": " ++ e.message]
            emittedErrors := st.emittedErrors ++
              [createRaterError e.message "CALCULATION_FAILED" (some g.id)]
            halted := true }) ∧
    (∀ (st2 : RatingEngine.RateLoopState) (g2 : RateFactorGroup),
      st2.halted = true → RatingEngine.rateStep cfg ev st2 g2 = st2) ∧
    (∀ (cfg2 : EngineConfig) (st2 : EngineState) (subject : JSValue)
        (groups : List RateFactorGroup), st2.isDestroyed = false →
      (RatingEngine.rate cfg2 st2 subject groups).isOk = true) := by
  refine ⟨?_, ?_, ?_, ?_⟩
  · intro hc
    simp [RatingEngine.rateStep, hh, hev, hc]
  · intro hc
    simp [RatingEngine.rateStep, hh, hev, hc]
  · intro st2 g2 h2
    simp [RatingEngine.rateStep, h2]
  · intro cfg2 st2 subject groups hd
    simp [RatingEngine.rate, RatingEngine.assertNotDestroyed, hd, Except.isOk]
    rfl

/-- C2 witness: concrete instances of the amended behaviour in both modes,
of the post-`break` skipping, and of `rate` returning normally. -/
theorem rate_error_handling_witness :
    RatingEngine.rateStep cfgC2 evC2 {} gC2 =
      { errors := ["Group \"g1\": boom"] } ∧
    RatingEngine.rateStep cfgC2strict evC2 {} gC2 =
      { errors := ["Group \"g1\": boom"],
        emittedErrors := [createRaterError "boom" "CALCULATION_FAILED" (some "g1")],
        halted := true } ∧
    RatingEngine.rateStep cfgC2 evC2 { halted := true } gC2 = { halted := true } ∧
    (RatingEngine.rate {} {} (.obj .nil) []).isOk = true := by
  refine ⟨?_, ?_, ?_, ?_⟩
  · rw [(rate_error_handling cfgC2 evC2 {} gC2
      (createRaterError "boom" "CALCULATION_FAILED") rfl rfl).1 rfl]
    rfl
  · rw [(rate_error_handling cfgC2strict evC2 {} gC2
      (createRaterError "boom" "CALCULATION_FAILED") rfl rfl).2.1 rfl]
    rfl
  · exact (rate_error_handling cfgC2 evC2 {} gC2
      (createRaterError "boom" "CALCULATION_FAILED") rfl rfl).2.2.1 { halted := true } gC2 rfl
  · exact (rate_error_handling cfgC2 evC2 {} gC2
      (createRaterError "boom" "CALCULATION_FAILED") rfl rfl).2.2.2 {} {} (.obj .nil) [] rfl

/-- In every branch of `rateGroupCore` the returned `factorResults` are the
priority-sorted factors evaluated in order. -/
theorem rateGroupCore_factorResults (subject : JSValue) (group : RateFactorGroup) :
    (RatingEngine.rateGroupCore subject group).factorResults
      = (RatingEngine.sortFactorsByPriority group.factors).map
          (RatingEngine.rateFactorCore subject) := by
  unfold RatingEngine.rateGroupCore
  dsimp only
  split_ifs <;> first | rfl | (cases group.baseRate <;> rfl)

/-- C4 (amended): provided the `requireAll` constraint does not fail, a group
with at least one applied factor and a defined `baseRate` gets the two-pass
aggregation `aggregate [baseRate, aggregate appliedRates method] method`, and
a group with no applied factor gets `baseRate ?? 0` with `isApplied = false`.
(When `requireAll` cuts in, both rules are bypassed and the rate is 0.) -/
theorem group_baseRate_two_pass (subject : JSValue) (group : RateFactorGroup)
    (hreq : group.requireAll = some true →
      ((RatingEngine.sortFactorsByPriority group.factors).map
        (RatingEngine.rateFactorCore subject)).all
          (fun r => r.isApplied || !(r.factor.required = some true)) = true) :
    ((((RatingEngine.sortFactorsByPriority group.factors).map
        (RatingEngine.rateFactorCore subject)).filter (fun r => r.isApplied)).map
        (fun r => r.rate) = [] →
      (RatingEngine.rateGroupCore subject group).rate = group.baseRate.getD 0 ∧
      (RatingEngine.rateGroupCore subject group).isApplied = false) ∧
    (∀ b, group.baseRate = some b →
      (((RatingEngine.sortFactorsByPriority group.factors).map
        (RatingEngine.rateFactorCore subject)).filter (fun r => r.isApplied)).map
        (fun r => r.rate) ≠ [] →
      (RatingEngine.rateGroupCore subject group).rate =
        RatingEngine.aggregate
          [b, RatingEngine.aggregate
            ((((RatingEngine.sortFactorsByPriority group.factors).map
              (RatingEngine.rateFactorCore subject)).filter (fun r => r.isApplied)).map
              (fun r => r.rate)) group.aggregationMethod]
          group.aggregationMethod ∧
      (RatingEngine.rateGroupCore subject group).isApplied = true) := by
  have hfail : (decide (group.requireAll = some true) &&
      !(((RatingEngine.sortFactorsByPriority group.factors).map
        (RatingEngine.rateFactorCore subject)).all
          (fun r => r.isApplied || !decide (r.factor.required = some true)))) = false := by
    by_cases hra : group.requireAll = some true
    · have h2 := hreq hra
      simp only [hra] at h2 ⊢
      simp [h2]
    · simp [hra]
  refine ⟨?_, ?_⟩
  · intro hempty
    constructor <;>
      simp [RatingEngine.rateGroupCore, hfail, hempty]
  · intro b hb hne
    simp only [ne_eq, List.map_eq_nil_iff, List.filter_eq_nil_iff, List.forall_mem_map,
      Bool.not_eq_true] at hne
    constructor <;>
      simp [RatingEngine.rateGroupCore, hfail, hb, List.length_eq_zero, hne]

/-- Empty subject used in the C4 analysis. -/
def subjC4 : JSValue := .obj .nil

/-- Factor that applies unconditionally with rate 3. -/
def fC4applied : RateFactor := { id := "a", label := "A", baseRate := some 3 }

/-- Disabled required factor (so `requireAll` fails although another factor
is applied). -/
def fC4required : RateFactor :=
  { id := "b", label := "B", baseRate := some 4, required := some true,
    enabled := some false }

/-- Group with a defined `baseRate` whose `requireAll` constraint fails while
one factor is still applied. -/
def gC4 : RateFactorGroup :=
  { id := "g", label := "G", factors := [fC4applied, fC4required],
    aggregationMethod := "sum", baseRate := some 5, requireAll := some true }

/-- C4 counterexample to the claim as stated: in `gC4` one factor is applied
(rates `[3]`) and `baseRate = 5` is defined, yet the group rate is `0`, not
the claimed two-pass value `aggregate [5, aggregate [3] sum] sum = 8` —
because the failing `requireAll` constraint bypasses the baseRate rules. -/
theorem group_baseRate_two_pass_counterexample :
    ((RatingEngine.rateGroupCore subjC4 gC4).factorResults.filter
        (fun r => r.isApplied)).map (fun r => r.rate) = [3] ∧
    gC4.baseRate = some 5 ∧
    RatingEngine.aggregate
      [5, RatingEngine.aggregate [3] gC4.aggregationMethod] gC4.aggregationMethod = 8 ∧
    (RatingEngine.rateGroupCore subjC4 gC4).rate = 0 ∧
    (RatingEngine.rateGroupCore subjC4 gC4).rate ≠ 8 := by
  refine ⟨by decide, rfl, ?_, by decide, by decide⟩
  show RatingEngine.aggregate [5, RatingEngine.aggregate [3] "sum"] "sum" = 8
  norm_num [RatingEngine.aggregate, List.foldl_cons, List.foldl_nil]

/-- Group with only a disabled factor and a defined `baseRate` (no factor
applied). -/
def gC4e : RateFactorGroup :=
  { id := "ge", label := "GE",
    factors := [{ id := "x", label := "X", baseRate := some 3, enabled := some false }],
    aggregationMethod := "sum", baseRate := some 5 }

/-- Group with one applied factor (rate 3) and `baseRate = 5`. -/
def gC4n : RateFactorGroup :=
  { id := "gn", label := "GN",
    factors := [{ id := "y", label := "Y", baseRate := some 3 }],
    aggregationMethod := "sum", baseRate := some 5 }

/-- C4 witness: with no applied factor the rate is the group baseRate 5; with
one applied factor 3 and baseRate 5 under `sum` the two-pass rate is 8. -/
theorem group_baseRate_two_pass_witness :
    ((RatingEngine.rateGroupCore subjC4 gC4e).rate = 5 ∧
      (RatingEngine.rateGroupCore subjC4 gC4e).isApplied = false) ∧
    ((RatingEngine.rateGroupCore subjC4 gC4n).rate = 8 ∧
      (RatingEngine.rateGroupCore subjC4 gC4n).isApplied = true) := by
  constructor
  · have h := (group_baseRate_two_pass subjC4 gC4e
      (fun hra => absurd hra (by decide))).1 (by decide)
    exact ⟨h.1.trans (by decide), h.2⟩
  · have h := (group_baseRate_two_pass subjC4 gC4n
      (fun hra => absurd hra (by decide))).2 5 rfl (by decide)
    refine ⟨h.1.trans ?_, h.2⟩
    have hm : (((RatingEngine.sortFactorsByPriority gC4n.factors).map
        (RatingEngine.rateFactorCore subjC4)).filter (fun r => r.isApplied)).map
        (fun r => r.rate) = [3] := by decide
    rw [hm]
    norm_num [gC4n, RatingEngine.aggregate, List.foldl_cons, List.foldl_nil]

/-- In every branch of `rateFactorCore` the result echoes the input factor. -/
theorem rateFactorCore_factor (subject : JSValue) (factor : RateFactor) :
    (RatingEngine.rateFactorCore subject factor).factor = factor := by
  unfold RatingEngine.rateFactorCore
  dsimp only
  split
  · rfl
  · split
    · split <;> rfl
    · rfl

instance : IsTotal RateFactor
    (fun a b => RatingEngine.factorPriority a ≤ RatingEngine.factorPriority b) :=
  ⟨fun a b => le_total _ _⟩

instance : IsTrans RateFactor
    (fun a b => RatingEngine.factorPriority a ≤ RatingEngine.factorPriority b) :=
  ⟨fun _ _ _ h1 h2 => le_trans h1 h2⟩

/-- Inserting a factor keeps the subsequence of any fixed priority key: the
new element lands in front of the equal-priority block. -/
theorem filter_priority_orderedInsert (p : ℚ) (x : RateFactor) (s : List RateFactor) :
    (List.orderedInsert
        (fun a b => RatingEngine.factorPriority a ≤ RatingEngine.factorPriority b) x s).filter
        (fun f => decide (RatingEngine.factorPriority f = p))
      = if RatingEngine.factorPriority x = p
          then x :: s.filter (fun f => decide (RatingEngine.factorPriority f = p))
          else s.filter (fun f => decide (RatingEngine.factorPriority f = p)) := by
  induction s with
  | nil =>
    by_cases hxp : RatingEngine.factorPriority x = p <;>
      simp [List.orderedInsert, List.filter, hxp]
  | cons y ys ih =>
    simp only [List.orderedInsert]
    by_cases hxy : RatingEngine.factorPriority x ≤ RatingEngine.factorPriority y
    · rw [if_pos hxy]
      by_cases hxp : RatingEngine.factorPriority x = p <;>
        simp [List.filter_cons, hxp]
    · rw [if_neg hxy]
      have hyx : RatingEngine.factorPriority y < RatingEngine.factorPriority x :=
        lt_of_not_le hxy
      by_cases hxp : RatingEngine.factorPriority x = p
      · have hyp : RatingEngine.factorPriority y ≠ p := by
          rw [← hxp]
          exact ne_of_lt hyx
        simp [List.filter_cons, hyp, ih, hxp]
      · by_cases hyp : RatingEngine.factorPriority y = p <;>
          simp [List.filter_cons, hyp, ih, hxp]

/-- Stability of the factor sort: for every priority key, the subsequence of
factors carrying that key is exactly the original one (original relative
order preserved among ties). -/
theorem filter_priority_sortFactors (p : ℚ) (l : List RateFactor) :
    (RatingEngine.sortFactorsByPriority l).filter
        (fun f => decide (RatingEngine.factorPriority f = p))
      = l.filter (fun f => decide (RatingEngine.factorPriority f = p)) := by
  induction l with
  | nil => rfl
  | cons x xs ih =>
    simp only [RatingEngine.sortFactorsByPriority, List.insertionSort] at ih ⊢
    rw [filter_priority_orderedInsert]
    by_cases hxp : RatingEngine.factorPriority x = p <;>
      simp [hxp, ih, List.filter_cons]

/-- Five factors with priorities `[10, 5, 0, -1, undefined]` in that original
order. -/
def fsC6 : List RateFactor :=
  [{ id := "a", label := "A", priority := some 10 },
   { id := "b", label := "B", priority := some 5 },
   { id := "c", label := "C", priority := some 0 },
   { id := "d", label := "D", priority := some (-1) },
   { id := "e", label := "E" }]

/-- C6: `rateGroup` evaluates factors in the order of a stable ascending
sort on `priority ?? 0`: the evaluated order is sorted and a permutation of
the input, ties keep their original relative order (the filtered
equal-priority subsequences are unchanged), and the 5-factor example with
priorities `[10, 5, 0, -1, undefined]` evaluates as `d, c, e, b, a` — the
explicit 0 before the defaulted one by original order. -/
theorem factors_stable_priority_sort :
    (∀ (subject : JSValue) (group : RateFactorGroup),
      (RatingEngine.rateGroupCore subject group).factorResults.map (fun r => r.factor)
        = RatingEngine.sortFactorsByPriority group.factors) ∧
    (∀ factors : List RateFactor,
      List.Sorted (fun a b => RatingEngine.factorPriority a ≤ RatingEngine.factorPriority b)
        (RatingEngine.sortFactorsByPriority factors)) ∧
    (∀ factors : List RateFactor,
      List.Perm (RatingEngine.sortFactorsByPriority factors) factors) ∧
    (∀ (factors : List RateFactor) (p : ℚ),
      (RatingEngine.sortFactorsByPriority factors).filter
          (fun f => decide (RatingEngine.factorPriority f = p))
        = factors.filter (fun f => decide (RatingEngine.factorPriority f = p))) ∧
    (RatingEngine.sortFactorsByPriority fsC6).map (fun f => f.id) = ["d", "c", "e", "b", "a"] := by
  refine ⟨?_, ?_, ?_, fun factors p => filter_priority_sortFactors p factors, ?_⟩
  · intro subject group
    rw [rateGroupCore_factorResults, List.map_map]
    simp only [Function.comp_def, rateFactorCore_factor, List.map_id']
  · exact fun factors => List.sorted_insertionSort _ factors
  · exact fun factors => List.perm_insertionSort _ factors
  · decide

end Rater
